import Mathlib

/-!
Shallow embedding of the cachified-rs freshness engine (src/lib.rs,
src/metadata.rs, src/error.rs, src/validation.rs).

Durations (`std::time::Duration`) are modelled as `Nat` (a non-negative
quantity of time units); `created_time` is a `Nat` duration since the epoch,
exactly as in the source.  Storage is modelled per key: the engine only ever
touches the single key of the request, so the cache state relevant to one
call is `Option (CacheEntry T)` — the entry currently stored under that key.
Asynchronous effects are made explicit: the result of the synchronous
producer invocation, the success of a storage `set`, and the body of the
spawned background-refresh task are parameters / separate functions.
-/

namespace Cachified

/-- `CacheMetadata` from src/metadata.rs: creation time plus optional ttl. -/
structure CacheMetadata where
  created_time : Nat
  ttl : Option Nat
  deriving Repr, DecidableEq

/-- `CacheMetadata::is_expired` (src/metadata.rs lines 38–44, duplicated as the
free function `is_expired` in src/lib.rs lines 250–256):
expired iff a ttl is present and `now >= created_time + ttl`. -/
def CacheMetadata.is_expired (m : CacheMetadata) (now : Nat) : Bool :=
  match m.ttl with
  | some ttl => decide (now ≥ m.created_time + ttl)
  | none => false

/-- `CacheMetadata::expires_at` (src/metadata.rs lines 47–49). -/
def CacheMetadata.expires_at (m : CacheMetadata) : Option Nat :=
  m.ttl.map (fun ttl => m.created_time + ttl)

/-- `CacheMetadata::age` (src/metadata.rs lines 52–54): saturating subtraction,
which is exactly `Nat` subtraction. -/
def CacheMetadata.age (m : CacheMetadata) (now : Nat) : Nat :=
  now - m.created_time

/-- `CacheEntry<T>` from src/metadata.rs: a value plus its metadata. -/
structure CacheEntry (T : Type) where
  value : T
  metadata : CacheMetadata
  deriving Repr, DecidableEq

/-- `CachifiedError` from src/error.rs. -/
inductive CachifiedError where
  | FreshValueError : String → CachifiedError
  | ValidationError : String → CachifiedError
  | CacheError : String → CachifiedError
  | Other : String → CachifiedError
  deriving Repr, DecidableEq

/-- A validator (`Box<dyn CheckValue<T>>`): `check` returns `Ok(())` or an
arbitrary `CachifiedError` (src/validation.rs lines 10–15). -/
def Validator (T : Type) : Type := T → Except CachifiedError Unit

/-- Per-call configuration, from `CachifiedOptions` (src/options.rs): the
fields the decision logic reads.  The cache handle, key and producer are
modelled as explicit parameters of the engine instead. -/
structure CachifiedOptions (T : Type) where
  ttl : Option Nat
  stale_while_revalidate : Option Nat
  force_fresh : Bool
  fallback_to_cache : Bool
  check_value : Option (Validator T)

/-- `if let Some(ref validator) = check_value { validator.check(v).is_ok() }
else { true }` — the "no validator, or validator accepts" test that the
engine repeats at each serve point. -/
def accepts {T : Type} (check_value : Option (Validator T)) (v : T) : Bool :=
  match check_value with
  | some validator =>
    match validator v with
    | Except.ok _ => true
    | Except.error _ => false
  | none => true

/-- Observable outcome of one synchronous `cachified` call:
the returned `Result`, the entry stored under the key when the call returns,
how many times `cache.get(&key)` ran, whether `cache.set` was called on the
synchronous path, whether `get_fresh_value().await` ran on the synchronous
path, and whether a background refresh was spawned. -/
structure CachifiedOutcome (T : Type) where
  result : Except CachifiedError T
  cacheAfter : Option (CacheEntry T)
  cacheReads : Nat
  setAttempted : Bool
  syncProducerInvoked : Bool
  refreshDispatched : Bool
  deriving Repr

/-- `if let Some(ref validator) = check_value { validator.check(&fresh_value)?; }`
(src/lib.rs lines 198–200): the check the synchronous path applies to a
freshly produced value; with no validator it trivially passes, and the `?`
operator propagates the validator's own error value unchanged. -/
def checkFresh {T : Type} (check_value : Option (Validator T)) (v : T) :
    Except CachifiedError Unit :=
  match check_value with
  | some validator => validator v
  | none => Except.ok ()

/-- Step 4 of the engine — src/lib.rs lines 195–239: await the producer;
on success validate (`?` propagates the validator's own error), persist when
the configured ttl is strictly positive (a failed `set` is swallowed), and
return the fresh value; on failure optionally fall back to the stored entry.
`fresh` is the awaited result of `get_fresh_value()`, `setOk` tells whether a
`cache.set` call would succeed, `reads` and `dispatched` carry the effect
counts accumulated before reaching this point. -/
def getFreshPath {T : Type} (opts : CachifiedOptions T)
    (stored : Option (CacheEntry T)) (now : Nat)
    (fresh : Except CachifiedError T) (setOk : Bool)
    (reads : Nat) (dispatched : Bool) : CachifiedOutcome T :=
  match fresh with
  | Except.ok fresh_value =>
    match checkFresh opts.check_value fresh_value with
    | Except.error e =>
      { result := Except.error e, cacheAfter := stored, cacheReads := reads,
        setAttempted := false, syncProducerInvoked := true,
        refreshDispatched := dispatched }
    | Except.ok _ =>
      match opts.ttl with
      | some ttl_duration =>
        if ttl_duration > 0 then
          { result := Except.ok fresh_value,
            cacheAfter := if setOk
              then some { value := fresh_value, metadata := { created_time := now, ttl := opts.ttl } }
              else stored,
            cacheReads := reads, setAttempted := true,
            syncProducerInvoked := true, refreshDispatched := dispatched }
        else
          { result := Except.ok fresh_value, cacheAfter := stored,
            cacheReads := reads, setAttempted := false,
            syncProducerInvoked := true, refreshDispatched := dispatched }
      | none =>
        { result := Except.ok fresh_value, cacheAfter := stored,
          cacheReads := reads, setAttempted := false,
          syncProducerInvoked := true, refreshDispatched := dispatched }
  | Except.error e =>
    if opts.fallback_to_cache then
      match stored with
      | some entry =>
        match opts.check_value with
        | some validator =>
          match validator entry.value with
          | Except.ok _ =>
            { result := Except.ok entry.value, cacheAfter := stored,
              cacheReads := reads + 1, setAttempted := false,
              syncProducerInvoked := true, refreshDispatched := dispatched }
          | Except.error _ =>
            { result := Except.error e, cacheAfter := stored,
              cacheReads := reads + 1, setAttempted := false,
              syncProducerInvoked := true, refreshDispatched := dispatched }
        | none =>
          { result := Except.ok entry.value, cacheAfter := stored,
            cacheReads := reads + 1, setAttempted := false,
            syncProducerInvoked := true, refreshDispatched := dispatched }
      | none =>
        { result := Except.error e, cacheAfter := stored,
          cacheReads := reads + 1, setAttempted := false,
          syncProducerInvoked := true, refreshDispatched := dispatched }
    else
      { result := Except.error e, cacheAfter := stored, cacheReads := reads,
        setAttempted := false, syncProducerInvoked := true,
        refreshDispatched := dispatched }

/-- The `cachified` decision engine — src/lib.rs lines 138–240, for one call
on one key.  `stored` is what `cache.get(&key)` returns during this call
(nothing else writes the key within one sequential call, so both the initial
read and the fallback re-read observe it), `now` is the time sampled once at
entry, `fresh` the awaited result of the synchronous producer invocation and
`setOk` whether a storage write succeeds. -/
def cachified {T : Type} (opts : CachifiedOptions T)
    (stored : Option (CacheEntry T)) (now : Nat)
    (fresh : Except CachifiedError T) (setOk : Bool) : CachifiedOutcome T :=
  if !opts.force_fresh then
    match stored with
    | some entry =>
      if !(entry.metadata.is_expired now) then
        match opts.check_value with
        | some validator =>
          match validator entry.value with
          | Except.ok _ =>
            { result := Except.ok entry.value, cacheAfter := stored,
              cacheReads := 1, setAttempted := false,
              syncProducerInvoked := false, refreshDispatched := false }
          | Except.error _ =>
            getFreshPath opts stored now fresh setOk 1 false
        | none =>
          { result := Except.ok entry.value, cacheAfter := stored,
            cacheReads := 1, setAttempted := false,
            syncProducerInvoked := false, refreshDispatched := false }
      else
        match opts.stale_while_revalidate with
        | some swr_duration =>
          let stale_until := entry.metadata.created_time +
            entry.metadata.ttl.getD 0 + swr_duration
          if now < stale_until then
            match opts.check_value with
            | some validator =>
              match validator entry.value with
              | Except.ok _ =>
                { result := Except.ok entry.value, cacheAfter := stored,
                  cacheReads := 1, setAttempted := false,
                  syncProducerInvoked := false, refreshDispatched := true }
              | Except.error _ =>
                getFreshPath opts stored now fresh setOk 1 true
            | none =>
              { result := Except.ok entry.value, cacheAfter := stored,
                cacheReads := 1, setAttempted := false,
                syncProducerInvoked := false, refreshDispatched := true }
          else
            getFreshPath opts stored now fresh setOk 1 false
        | none =>
          getFreshPath opts stored now fresh setOk 1 false
    | none =>
      getFreshPath opts stored now fresh setOk 1 false
  else
    getFreshPath opts stored now fresh setOk 0 false

/-- Observable outcome of the spawned background-refresh task:
the entry stored under the key once the task finishes, whether the task
called `cache.set`, and the error it surfaced (always none in the source:
producer failure is dropped by the `if let Ok` pattern and a `set` error by
`let _ =`). -/
structure RefreshOutcome (T : Type) where
  cacheAfter : Option (CacheEntry T)
  setAttempted : Bool
  surfacedError : Option CachifiedError
  deriving Repr

/-- Body of the `tokio::spawn` block dispatched while serving stale data —
src/lib.rs lines 167–179.  `ttl` is the configured ttl captured by the task,
`bgResult` the awaited result of the `get_fresh_value()` future,
`completion_time` the `current_time()` sampled when the producer finishes,
`cacheState` the entry stored under the key at write time and `setOk`
whether the `cache.set` call succeeds. -/
def backgroundRefresh {T : Type} (ttl : Option Nat)
    (bgResult : Except CachifiedError T) (completion_time : Nat)
    (cacheState : Option (CacheEntry T)) (setOk : Bool) : RefreshOutcome T :=
  match bgResult with
  | Except.ok fresh_value =>
    let entry : CacheEntry T :=
      { value := fresh_value,
        metadata := { created_time := completion_time, ttl := ttl } }
    { cacheAfter := if setOk then some entry else cacheState,
      setAttempted := true, surfacedError := none }
  | Except.error _ =>
    { cacheAfter := cacheState, setAttempted := false, surfacedError := none }

/-- `SoftPurgeOptions` (src/lib.rs lines 259–265), minus the key, which the
model carries implicitly by passing the entry stored under it. -/
structure SoftPurgeOptions where
  stale_while_revalidate : Option Nat

/-- The metadata rewrite `soft_purge` applies to a present entry —
src/lib.rs lines 337–347: first set `ttl = Some(0)`, then, with that new
ttl already in place, reset `created_time` to `now` when
`entry.metadata.is_expired(now)` holds. -/
def purgedEntry {T : Type} (entry : CacheEntry T) (now : Nat) : CacheEntry T :=
  let entry1 : CacheEntry T :=
    { entry with metadata := { entry.metadata with ttl := some 0 } }
  if entry1.metadata.is_expired now then
    { entry1 with metadata := { entry1.metadata with created_time := now } }
  else
    entry1

/-- `soft_purge` — src/lib.rs lines 326–355, for the one key of the request.
`stored` is what `cache.get(&key)` returns, `setResult` the result of the
`cache.set` call (whose error the `?` operator propagates).  On success the
function yields the entry now stored under the key; an absent entry is a
successful no-op.  The `stale_while_revalidate` field of the request is
destructured into `_` by the source and ignored. -/
def soft_purge {T : Type} (options : SoftPurgeOptions)
    (stored : Option (CacheEntry T)) (now : Nat)
    (setResult : Except CachifiedError Unit) :
    Except CachifiedError (Option (CacheEntry T)) :=
  match options with
  | { stale_while_revalidate := _ } =>
    match stored with
    | some entry =>
      match setResult with
      | Except.ok _ => Except.ok (some (purgedEntry entry now))
      | Except.error e => Except.error e
    | none => Except.ok none

/-- Bool test for the `ValidationError` variant of a call's result. -/
def resultIsValidationError {T : Type} (out : CachifiedOutcome T) : Bool :=
  match out.result with
  | Except.error (CachifiedError.ValidationError _) => true
  | _ => false

/-- The synchronous fresh-fetch path never clears an already-dispatched
refresh flag and always records one synchronous producer invocation. -/
theorem getFreshPath_flags {T : Type} (opts : CachifiedOptions T)
    (stored : Option (CacheEntry T)) (now : Nat)
    (fresh : Except CachifiedError T) (setOk : Bool)
    (reads : Nat) (dispatched : Bool) :
    (getFreshPath opts stored now fresh setOk reads dispatched).refreshDispatched
        = dispatched ∧
    (getFreshPath opts stored now fresh setOk reads dispatched).syncProducerInvoked
        = true := by
  unfold getFreshPath
  constructor
  · (repeat' split) <;> rfl
  · (repeat' split) <;> rfl

/-- A value that passes `accepts` makes `checkFresh` succeed. -/
theorem checkFresh_eq_ok {T : Type} (cv : Option (Validator T)) (v : T)
    (h : accepts cv v = true) : checkFresh cv v = Except.ok () := by
  cases cv with
  | none => rfl
  | some f =>
    unfold accepts at h
    dsimp only at h
    unfold checkFresh
    dsimp only
    cases hfv : f v with
    | ok u =>
      cases u
      rfl
    | error e =>
      rw [hfv] at h
      simp at h

/-- On the synchronous fresh path, a produced value that passes (or meets
no) validator is returned as the call's result, whatever `setOk` is. -/
theorem getFreshPath_ok_result {T : Type} (opts : CachifiedOptions T)
    (stored : Option (CacheEntry T)) (now : Nat) (v : T) (setOk : Bool)
    (reads : Nat) (dispatched : Bool)
    (hacc : accepts opts.check_value v = true) :
    (getFreshPath opts stored now (Except.ok v) setOk reads dispatched).result
      = Except.ok v := by
  unfold getFreshPath
  dsimp only
  rw [checkFresh_eq_ok opts.check_value v hacc]
  dsimp only
  cases httl : opts.ttl with
  | none => rfl
  | some t =>
    by_cases ht : t > 0
    · simp only [ht, if_pos]
    · simp only [ht, if_neg, not_false_iff]

/-- On the synchronous fresh path with a failing producer and
`fallback_to_cache` enabled, a stored entry whose value passes (or meets
no) validator is returned, after one further cache read. -/
theorem getFreshPath_error_fallback {T : Type} (opts : CachifiedOptions T)
    (entry : CacheEntry T) (now : Nat) (e : CachifiedError) (setOk : Bool)
    (reads : Nat) (dispatched : Bool)
    (hfb : opts.fallback_to_cache = true)
    (hacc : accepts opts.check_value entry.value = true) :
    (getFreshPath opts (some entry) now (Except.error e) setOk reads dispatched).result
        = Except.ok entry.value ∧
    (getFreshPath opts (some entry) now (Except.error e) setOk reads dispatched).cacheReads
        = reads + 1 := by
  cases hcv : opts.check_value with
  | none =>
    refine ⟨?_, ?_⟩ <;> simp [getFreshPath, hfb, hcv]
  | some f =>
    cases hfv : f entry.value with
    | ok u =>
      refine ⟨?_, ?_⟩ <;> simp [getFreshPath, hfb, hcv, hfv]
    | error e' =>
      unfold accepts at hacc
      rw [hcv] at hacc
      dsimp only at hacc
      rw [hfv] at hacc
      simp at hacc

/-- C3: for every metadata record and time `now`, `is_expired now` holds iff
a ttl is present and `now ≥ created_time + ttl`: an entry without a ttl is
never expired, an entry with ttl `t` is expired exactly when
`now ≥ created_time + t`, and in particular it is expired at the boundary
`created_time + t` (inclusive-expired). -/
theorem is_expired_characterization (c t now : Nat) :
    (CacheMetadata.is_expired { created_time := c, ttl := none } now = false) ∧
    (CacheMetadata.is_expired { created_time := c, ttl := some t } now
        = decide (now ≥ c + t)) ∧
    (CacheMetadata.is_expired { created_time := c, ttl := some t } (c + t)
        = true) := by
  refine ⟨rfl, rfl, ?_⟩
  simp [CacheMetadata.is_expired]

/-- C1 counterexample: the entry (created_time 0, ttl 100) is not yet
expired at purge time 50 under its old ttl, yet soft_purge resets its
created_time to 50 instead of leaving it unchanged, because the expiry
check runs only after the ttl has already been zeroed. -/
theorem soft_purge_unexpired_cex :
    (CacheMetadata.is_expired { created_time := 0, ttl := some 100 } 50
        = false) ∧
    (soft_purge { stale_while_revalidate := none }
        (some { value := (0 : Nat), metadata := { created_time := 0, ttl := some 100 } })
        50 (Except.ok ())
      = Except.ok (some { value := 0, metadata := { created_time := 50, ttl := some 0 } })) := by
  exact ⟨rfl, rfl⟩

/-- C1 amended: on a present entry, soft_purge sets ttl to zero and then
re-checks expiry under that new zero ttl, so created_time is reset to now
exactly when `created_time ≤ now` (in particular for every entry that was
already expired, but also for every not-yet-expired entry whose creation
time is in the past); it is kept only when `now < created_time`. -/
theorem soft_purge_created_time {T : Type} (options : SoftPurgeOptions)
    (entry : CacheEntry T) (now : Nat) :
    soft_purge options (some entry) now (Except.ok ())
      = Except.ok (some { value := entry.value, metadata := { created_time := if entry.metadata.created_time ≤ now then now else entry.metadata.created_time, ttl := some 0 } }) := by
  cases options
  simp only [soft_purge, purgedEntry, CacheMetadata.is_expired, Nat.add_zero,
    ge_iff_le]
  by_cases h : entry.metadata.created_time ≤ now
  · simp [h]
  · simp [h]

/-- C9: soft_purge leaves the entry's value untouched and the
stale_while_revalidate override on the request has no effect: the metadata
rewrite keeps the stored value, and any two overrides produce identical
results on every input. -/
theorem soft_purge_frame {T : Type} (o₁ o₂ : SoftPurgeOptions)
    (stored : Option (CacheEntry T)) (now : Nat)
    (setResult : Except CachifiedError Unit) (entry : CacheEntry T) :
    (soft_purge o₁ stored now setResult = soft_purge o₂ stored now setResult) ∧
    ((purgedEntry entry now).value = entry.value) := by
  cases o₁
  cases o₂
  refine ⟨rfl, ?_⟩
  unfold purgedEntry
  dsimp only
  split <;> rfl

/-- C4: on the synchronous fresh-fetch path, when the producer succeeds
with a value passing (or meeting no) validator, the fresh value is the
call's result for every `setOk` — in particular even when the storage
write fails — and a `cache.set` is attempted exactly when the configured
ttl is present and strictly positive, in which case (and when the write
succeeds) the stored entry becomes `{value, created_time := now, ttl}`;
when no set is attempted the stored entry is unchanged. -/
theorem fresh_path_persist {T : Type} (opts : CachifiedOptions T)
    (stored : Option (CacheEntry T)) (now : Nat) (v : T) (setOk : Bool)
    (reads : Nat) (dispatched : Bool) (out : CachifiedOutcome T)
    (hacc : accepts opts.check_value v = true)
    (hout : out = getFreshPath opts stored now (Except.ok v) setOk reads dispatched) :
    (out.result = Except.ok v) ∧
    (out.setAttempted = true ↔ ∃ t, opts.ttl = some t ∧ 0 < t) ∧
    (∀ t, opts.ttl = some t → 0 < t → setOk = true →
        out.cacheAfter = some { value := v, metadata := { created_time := now, ttl := opts.ttl } }) ∧
    (out.setAttempted = false → out.cacheAfter = stored) := by
  have hres := getFreshPath_ok_result opts stored now v setOk reads dispatched hacc
  subst hout
  refine ⟨hres, ?_, ?_, ?_⟩ <;>
  · unfold getFreshPath
    dsimp only
    rw [checkFresh_eq_ok opts.check_value v hacc]
    dsimp only
    cases httl : opts.ttl with
    | none => simp
    | some t =>
      by_cases ht : t > 0
      · cases setOk <;> simp [ht]
      · simp [ht]

/-- C5: the spawned background-refresh task (which captures no validator)
writes the produced value for every produced value `v` on producer success,
with created_time sampled at completion time, and on producer failure
writes nothing; in both cases it surfaces no error. -/
theorem background_refresh_behavior {T : Type} (ttl : Option Nat) (v : T)
    (e : CachifiedError) (completion_time : Nat)
    (st : Option (CacheEntry T)) (setOk : Bool) :
    (backgroundRefresh ttl (Except.ok v) completion_time st true
      = { cacheAfter := some { value := v, metadata := { created_time := completion_time, ttl := ttl } }, setAttempted := true, surfacedError := none }) ∧
    ((backgroundRefresh ttl (Except.ok v) completion_time st setOk).setAttempted
        = true) ∧
    ((backgroundRefresh ttl (Except.ok v) completion_time st setOk).surfacedError
        = none) ∧
    (backgroundRefresh ttl (Except.error e) completion_time st setOk
      = { cacheAfter := st, setAttempted := false, surfacedError := none }) := by
  exact ⟨rfl, rfl, rfl, rfl⟩

/-- C6 counterexample: the `?` on `validator.check(&fresh_value)` propagates
the validator's own error value verbatim, which need not be the
ValidationError variant: a validator rejecting with `Other "rejected"`
makes the call fail with exactly that non-validation error. -/
theorem fresh_reject_not_validation_cex :
    ((cachified { ttl := some 100, stale_while_revalidate := none, force_fresh := true, fallback_to_cache := false, check_value := some (fun _ => Except.error (CachifiedError.Other "rejected")) } (none : Option (CacheEntry Nat)) 0 (Except.ok 5) true).result
        = Except.error (CachifiedError.Other "rejected")) ∧
    (resultIsValidationError (cachified { ttl := some 100, stale_while_revalidate := none, force_fresh := true, fallback_to_cache := false, check_value := some (fun _ => Except.error (CachifiedError.Other "rejected")) } (none : Option (CacheEntry Nat)) 0 (Except.ok 5) true)
        = false) := by
  exact ⟨rfl, rfl⟩

/-- C6 amended: when the validator rejects a freshly produced value on the
synchronous fresh-fetch path, the call fails with exactly the error the
validator returned (which is a ValidationError whenever the validator
reports one, as the library's bundled validators do), the path's single
producer invocation is the only one, no fallback read occurs, and no
storage write is attempted — the stored entry is left unmodified. -/
theorem fresh_validation_failure {T : Type} (opts : CachifiedOptions T)
    (stored : Option (CacheEntry T)) (now : Nat) (v : T) (setOk : Bool)
    (reads : Nat) (dispatched : Bool) (f : Validator T) (e : CachifiedError)
    (hcv : opts.check_value = some f) (hrej : f v = Except.error e) :
    getFreshPath opts stored now (Except.ok v) setOk reads dispatched
      = { result := Except.error e, cacheAfter := stored, cacheReads := reads, setAttempted := false, syncProducerInvoked := true, refreshDispatched := dispatched } := by
  unfold getFreshPath checkFresh
  rw [hcv]
  dsimp only
  rw [hrej]

/-- C7: when the producer fails and fallback_to_cache is true, a stored
entry whose value passes (or meets no) validator is returned, masking the
producer error; with no stored entry, or a stored value the validator
rejects, the original producer error propagates unchanged. -/
theorem fallback_to_cache_behavior {T : Type} (ttlc swr : Option Nat)
    (ff : Bool) (cv : Option (Validator T)) (stored : Option (CacheEntry T))
    (now : Nat) (e : CachifiedError) (setOk : Bool) (reads : Nat)
    (dispatched : Bool) (out : CachifiedOutcome T)
    (hout : out = getFreshPath { ttl := ttlc, stale_while_revalidate := swr, force_fresh := ff, fallback_to_cache := true, check_value := cv } stored now (Except.error e) setOk reads dispatched) :
    (∀ entry, stored = some entry → accepts cv entry.value = true →
        out.result = Except.ok entry.value) ∧
    (∀ entry, stored = some entry → accepts cv entry.value = false →
        out.result = Except.error e) ∧
    (stored = none → out.result = Except.error e) := by
  subst hout
  refine ⟨?_, ?_, ?_⟩
  · intro entry hst hacc
    subst hst
    exact (getFreshPath_error_fallback _ entry now e setOk reads dispatched rfl hacc).1
  · intro entry hst hrej
    subst hst
    cases hcv : cv with
    | none =>
      rw [hcv] at hrej
      simp [accepts] at hrej
    | some f =>
      cases hfv : f entry.value with
      | ok u =>
        unfold accepts at hrej
        rw [hcv] at hrej
        dsimp only at hrej
        rw [hfv] at hrej
        simp at hrej
      | error e' =>
        simp [getFreshPath, hcv, hfv]
  · intro hst
    subst hst
    simp [getFreshPath]

/-- C10: force_fresh bypasses only the initial lookup, not the failure
fallback: with force_fresh and fallback_to_cache both true, a failing
producer and a stored entry whose value passes (or meets no) validator,
the call performs its single cache read after the producer failure and
returns the stored value instead of the error. -/
theorem force_fresh_fallback {T : Type} (ttlc swr : Option Nat)
    (cv : Option (Validator T)) (entry : CacheEntry T) (now : Nat)
    (e : CachifiedError) (setOk : Bool) (out : CachifiedOutcome T)
    (hacc : accepts cv entry.value = true)
    (hout : out = cachified { ttl := ttlc, stale_while_revalidate := swr, force_fresh := true, fallback_to_cache := true, check_value := cv } (some entry) now (Except.error e) setOk) :
    out.result = Except.ok entry.value ∧ out.cacheReads = 1 := by
  subst hout
  have h := getFreshPath_error_fallback
    { ttl := ttlc, stale_while_revalidate := swr, force_fresh := true, fallback_to_cache := true, check_value := cv }
    entry now e setOk 0 false rfl hacc
  simpa [cachified] using h

/-- C2: with force_fresh false, an SWR duration `s` configured, a stored
entry expired at `now` whose value passes (or meets no) validator, the call
dispatches a background refresh exactly when
`now < created_time + ttl.unwrap_or(0) + s`, in which case it serves the
stale stored value with no synchronous producer invocation; at or past
that bound it dispatches nothing and invokes the producer synchronously. -/
theorem swr_window_behavior {T : Type} (ttlc : Option Nat) (s : Nat)
    (fb : Bool) (cv : Option (Validator T)) (entry : CacheEntry T)
    (now : Nat) (fresh : Except CachifiedError T) (setOk : Bool)
    (out : CachifiedOutcome T)
    (hexp : entry.metadata.is_expired now = true)
    (hacc : accepts cv entry.value = true)
    (hout : out = cachified { ttl := ttlc, stale_while_revalidate := some s, force_fresh := false, fallback_to_cache := fb, check_value := cv } (some entry) now fresh setOk) :
    (out.refreshDispatched = true ↔
        now < entry.metadata.created_time + entry.metadata.ttl.getD 0 + s) ∧
    (now < entry.metadata.created_time + entry.metadata.ttl.getD 0 + s →
        out.result = Except.ok entry.value ∧ out.syncProducerInvoked = false) ∧
    (entry.metadata.created_time + entry.metadata.ttl.getD 0 + s ≤ now →
        out.syncProducerInvoked = true ∧ out.refreshDispatched = false) := by
  subst hout
  by_cases hlt : now < entry.metadata.created_time + entry.metadata.ttl.getD 0 + s
  · have hred : cachified { ttl := ttlc, stale_while_revalidate := some s, force_fresh := false, fallback_to_cache := fb, check_value := cv } (some entry) now fresh setOk
        = { result := Except.ok entry.value, cacheAfter := some entry, cacheReads := 1, setAttempted := false, syncProducerInvoked := false, refreshDispatched := true } := by
      cases cv with
      | none => simp [cachified, hexp, hlt]
      | some f =>
        cases hfv : f entry.value with
        | ok u => simp [cachified, hexp, hlt, hfv]
        | error e' => simp [accepts, hfv] at hacc
    rw [hred]
    refine ⟨by simpa using hlt, fun _ => ⟨rfl, rfl⟩, fun h => absurd hlt (by omega)⟩
  · have hred : cachified { ttl := ttlc, stale_while_revalidate := some s, force_fresh := false, fallback_to_cache := fb, check_value := cv } (some entry) now fresh setOk
        = getFreshPath { ttl := ttlc, stale_while_revalidate := some s, force_fresh := false, fallback_to_cache := fb, check_value := cv } (some entry) now fresh setOk 1 false := by
      simp [cachified, hexp, hlt]
    have hfl := getFreshPath_flags
      { ttl := ttlc, stale_while_revalidate := some s, force_fresh := false, fallback_to_cache := fb, check_value := cv }
      (some entry) now fresh setOk 1 false
    rw [hred]
    refine ⟨?_, fun h => absurd h hlt, fun _ => ⟨hfl.2, hfl.1⟩⟩
    rw [hfl.1]
    simp [hlt]

/-- C8: with force_fresh false and a stored entry not expired at `now`,
a stored value passing (or meeting no) validator is returned with no
producer invocation; a stored value the validator rejects makes the call
proceed to the synchronous fresh path — the producer is invoked on that
same call, and the rejection itself never surfaces: when the producer then
succeeds with a value the validator accepts, the call succeeds with it. -/
theorem unexpired_entry_behavior {T : Type} (ttlc swr : Option Nat)
    (fb : Bool) (cv : Option (Validator T)) (entry : CacheEntry T)
    (now : Nat) (fresh : Except CachifiedError T) (setOk : Bool)
    (out : CachifiedOutcome T)
    (hexp : entry.metadata.is_expired now = false)
    (hout : out = cachified { ttl := ttlc, stale_while_revalidate := swr, force_fresh := false, fallback_to_cache := fb, check_value := cv } (some entry) now fresh setOk) :
    (accepts cv entry.value = true →
        out.result = Except.ok entry.value ∧ out.syncProducerInvoked = false) ∧
    (∀ f e', cv = some f → f entry.value = Except.error e' →
        out = getFreshPath { ttl := ttlc, stale_while_revalidate := swr, force_fresh := false, fallback_to_cache := fb, check_value := some f } (some entry) now fresh setOk 1 false ∧
        out.syncProducerInvoked = true ∧
        (∀ w, fresh = Except.ok w → accepts cv w = true →
            out.result = Except.ok w)) := by
  subst hout
  constructor
  · intro hacc
    cases cv with
    | none =>
      refine ⟨?_, ?_⟩ <;> simp [cachified, hexp]
    | some f =>
      cases hfv : f entry.value with
      | ok u =>
        refine ⟨?_, ?_⟩ <;> simp [cachified, hexp, hfv]
      | error e' => simp [accepts, hfv] at hacc
  · intro f e' hcv hfv
    subst hcv
    have hred : cachified { ttl := ttlc, stale_while_revalidate := swr, force_fresh := false, fallback_to_cache := fb, check_value := some f } (some entry) now fresh setOk
        = getFreshPath { ttl := ttlc, stale_while_revalidate := swr, force_fresh := false, fallback_to_cache := fb, check_value := some f } (some entry) now fresh setOk 1 false := by
      simp [cachified, hexp, hfv]
    have hfl := getFreshPath_flags
      { ttl := ttlc, stale_while_revalidate := swr, force_fresh := false, fallback_to_cache := fb, check_value := some f }
      (some entry) now fresh setOk 1 false
    refine ⟨hred, by rw [hred]; exact hfl.2, ?_⟩
    intro w hw hacc
    subst hw
    rw [hred]
    exact getFreshPath_ok_result _ _ _ _ _ _ _ hacc

/-- Witness for C2: entry (created_time 0, ttl 100) with swr 50 at now = 120
— inside the stale window — serves the stale value 7 and dispatches a
background refresh. -/
theorem swr_window_behavior_witness :
    ((cachified { ttl := some 100, stale_while_revalidate := some 50, force_fresh := false, fallback_to_cache := false, check_value := (none : Option (Validator Nat)) } (some { value := 7, metadata := { created_time := 0, ttl := some 100 } }) 120 (Except.ok 9) true).refreshDispatched = true) ∧
    ((cachified { ttl := some 100, stale_while_revalidate := some 50, force_fresh := false, fallback_to_cache := false, check_value := (none : Option (Validator Nat)) } (some { value := 7, metadata := { created_time := 0, ttl := some 100 } }) 120 (Except.ok 9) true).result = Except.ok 7) := by
  have h := swr_window_behavior (T := Nat) (some 100) 50 false none
    { value := 7, metadata := { created_time := 0, ttl := some 100 } }
    120 (Except.ok 9) true _ (by decide) rfl rfl
  exact ⟨h.1.mpr (by decide), (h.2.1 (by decide)).1⟩

/-- Witness for C4: a fresh value 42 with ttl 60 is returned and persisted
as an entry created at now = 10. -/
theorem fresh_path_persist_witness :
    ((getFreshPath { ttl := some 60, stale_while_revalidate := none, force_fresh := false, fallback_to_cache := false, check_value := (none : Option (Validator Nat)) } none 10 (Except.ok 42) true 1 false).result = Except.ok 42) ∧
    ((getFreshPath { ttl := some 60, stale_while_revalidate := none, force_fresh := false, fallback_to_cache := false, check_value := (none : Option (Validator Nat)) } none 10 (Except.ok 42) true 1 false).setAttempted = true) := by
  have h := fresh_path_persist (T := Nat)
    { ttl := some 60, stale_while_revalidate := none, force_fresh := false, fallback_to_cache := false, check_value := none }
    none 10 42 true 1 false _ rfl rfl
  exact ⟨h.1, h.2.1.mpr ⟨60, rfl, by decide⟩⟩

/-- Witness for C6 (amended): a validator rejecting 0 with a
ValidationError makes the synchronous fresh path fail with that error,
leaving the stored entry untouched. -/
theorem fresh_validation_failure_witness :
    getFreshPath { ttl := some 60, stale_while_revalidate := none, force_fresh := false, fallback_to_cache := true, check_value := some (fun n => if n = 0 then Except.error (CachifiedError.ValidationError "zero") else Except.ok ()) } (some { value := (5 : Nat), metadata := { created_time := 0, ttl := some 60 } }) 10 (Except.ok 0) true 1 false
      = { result := Except.error (CachifiedError.ValidationError "zero"), cacheAfter := some { value := 5, metadata := { created_time := 0, ttl := some 60 } }, cacheReads := 1, setAttempted := false, syncProducerInvoked := true, refreshDispatched := false } := by
  exact fresh_validation_failure _ _ _ _ _ _ _ _ _ rfl rfl

/-- Witness for C7: with a failing producer and fallback enabled, the
expired stored value 3 is returned, masking the producer error. -/
theorem fallback_to_cache_behavior_witness :
    (getFreshPath { ttl := some 60, stale_while_revalidate := none, force_fresh := false, fallback_to_cache := true, check_value := (none : Option (Validator Nat)) } (some { value := 3, metadata := { created_time := 0, ttl := some 1 } }) 10 (Except.error (CachifiedError.FreshValueError "boom")) true 2 false).result
      = Except.ok 3 := by
  exact (fallback_to_cache_behavior (T := Nat) (some 60) none false none
    (some { value := 3, metadata := { created_time := 0, ttl := some 1 } })
    10 (CachifiedError.FreshValueError "boom") true 2 false _ rfl).1
    { value := 3, metadata := { created_time := 0, ttl := some 1 } } rfl rfl

/-- Witness for C8: an unexpired stored value 7 is served with no producer
invocation. -/
theorem unexpired_entry_behavior_witness :
    ((cachified { ttl := some 100, stale_while_revalidate := none, force_fresh := false, fallback_to_cache := false, check_value := (none : Option (Validator Nat)) } (some { value := 7, metadata := { created_time := 0, ttl := some 100 } }) 50 (Except.ok 9) true).result = Except.ok 7) ∧
    ((cachified { ttl := some 100, stale_while_revalidate := none, force_fresh := false, fallback_to_cache := false, check_value := (none : Option (Validator Nat)) } (some { value := 7, metadata := { created_time := 0, ttl := some 100 } }) 50 (Except.ok 9) true).syncProducerInvoked = false) := by
  exact (unexpired_entry_behavior (T := Nat) (some 100) none false none
    { value := 7, metadata := { created_time := 0, ttl := some 100 } }
    50 (Except.ok 9) true _ (by decide) rfl).1 rfl

/-- Witness for C10: force_fresh plus fallback with a failing producer
reads the stored entry once, after the failure, and returns its value 7. -/
theorem force_fresh_fallback_witness :
    ((cachified { ttl := some 100, stale_while_revalidate := none, force_fresh := true, fallback_to_cache := true, check_value := (none : Option (Validator Nat)) } (some { value := 7, metadata := { created_time := 0, ttl := some 1 } }) 50 (Except.error (CachifiedError.FreshValueError "fail")) true).result = Except.ok 7) ∧
    ((cachified { ttl := some 100, stale_while_revalidate := none, force_fresh := true, fallback_to_cache := true, check_value := (none : Option (Validator Nat)) } (some { value := 7, metadata := { created_time := 0, ttl := some 1 } }) 50 (Except.error (CachifiedError.FreshValueError "fail")) true).cacheReads = 1) := by
  exact force_fresh_fallback (T := Nat) (some 100) none none
    { value := 7, metadata := { created_time := 0, ttl := some 1 } }
    50 (CachifiedError.FreshValueError "fail") true _ rfl rfl

end Cachified
